import Mathlib

/-!
Verification development for the `my-web-server` repository: a shallow
embedding of the two server implementations, `src/server.py` (the minimal
variant) and `src/临时.py` (the extended variant with percent-decoding,
directory listings and download headers), together with theorems settling
the specification's claims about them.

Python strings are embedded as Lean `String` (a list of unicode scalar
values, exactly Python's `str` model), Python `bytes` as `List Nat` with
each element < 256, and the filesystem as a map from canonical absolute
path to a node (file contents plus readability, or directory children).
A handler run is embedded as the trace of its externally visible actions:
filesystem stats, reads and listings, socket sends, and the socket close.

Every Python `str` method the handlers use is modelled by a function that
recurses structurally (where needed, on a fuel argument initialized with
the input's length, which a one-step consumption argument shows is always
sufficient), so every definition evaluates by kernel reduction.
-/

/-- A node of the modelled filesystem: a regular file (its byte content and
whether `os.access(..., os.R_OK)` holds) or a directory (names returned by
`os.listdir`). -/
inductive Node
| file (content : List Nat) (readable : Bool)
| dir (children : List String)
deriving DecidableEq

/-- The filesystem: a map keyed by canonical (normalized, absolute) path.
Lookups made by the handlers go through `osStat`, which canonicalizes the
queried path the way the operating system does. -/
abbrev Fs := String → Option Node

/-- One externally visible action of a connection handler: a filesystem
stat (`os.path.isfile` / `os.path.isdir` / `os.access`), a directory
enumeration (`os.listdir`), a file read (`open(...).read()`), a socket
send (`client_socket.sendall`), or the socket close. -/
inductive Ev
| stat (p : String)
| listdir (p : String)
| read (p : String)
| send (data : List Nat)
| close
deriving DecidableEq

/-- The payloads of the send events of a trace, in order. -/
def sends (t : List Ev) : List (List Nat) :=
  t.filterMap fun e => match e with
    | Ev.send d => some d
    | _ => none

/-- A Python value that is either `str` or `bytes` — the type of the
`content` argument of `create_response` (callers pass both). -/
inductive PyData
| str (s : String)
| bytes (b : List Nat)
deriving DecidableEq

/-- Python truthiness of the `content` argument (`if content:`): a `str` or
`bytes` is truthy exactly when non-empty. -/
def PyData.isTruthy : PyData → Bool
| PyData.str s => s != ""
| PyData.bytes b => !b.isEmpty

/-- Python `len(content)`: the number of characters of a `str` (NOT its
UTF-8 byte length), the number of bytes of a `bytes`. -/
def PyData.pyLen : PyData → Nat
| PyData.str s => s.length
| PyData.bytes b => b.length

/-- UTF-8 encoding of one unicode scalar value, as byte values. -/
def utf8EncodeChar (c : Char) : List Nat :=
  let n := c.toNat
  if n < 128 then [n]
  else if n < 2048 then [192 + n / 64, 128 + n % 64]
  else if n < 65536 then [224 + n / 4096, 128 + (n / 64) % 64, 128 + n % 64]
  else [240 + n / 262144, 128 + (n / 4096) % 64, 128 + (n / 64) % 64, 128 + n % 64]

/-- UTF-8 encoding of a string (Python `str.encode('utf-8')`). -/
def utf8Encode (s : String) : List Nat :=
  s.data.foldr (fun c acc => utf8EncodeChar c ++ acc) []

/-- `content if isinstance(content, bytes) else content.encode('utf-8')`:
the body bytes actually appended to the serialized response. -/
def PyData.encodeBody : PyData → List Nat
| PyData.str s => utf8Encode s
| PyData.bytes b => b

/-- The first character of a strict UTF-8 decode: given the lead byte and
the remaining bytes, the decoded scalar and the bytes left over, or `none`
for an invalid or truncated sequence.  Overlong forms, surrogates and
values above U+10FFFF are rejected, exactly as CPython rejects them. -/
def utf8First? (b : Nat) (bs : List Nat) : Option (Char × List Nat) :=
  if b < 128 then some (Char.ofNat b, bs)
  else if 194 ≤ b ∧ b ≤ 223 then
    match bs with
    | b1 :: bs1 =>
      if 128 ≤ b1 ∧ b1 ≤ 191 then
        some (Char.ofNat ((b - 192) * 64 + (b1 - 128)), bs1)
      else none
    | [] => none
  else if 224 ≤ b ∧ b ≤ 239 then
    match bs with
    | b1 :: b2 :: bs2 =>
      if (if b = 224 then 160 ≤ b1 ∧ b1 ≤ 191
          else if b = 237 then 128 ≤ b1 ∧ b1 ≤ 159
          else 128 ≤ b1 ∧ b1 ≤ 191) ∧ 128 ≤ b2 ∧ b2 ≤ 191 then
        some (Char.ofNat ((b - 224) * 4096 + (b1 - 128) * 64 + (b2 - 128)), bs2)
      else none
    | _ => none
  else if 240 ≤ b ∧ b ≤ 244 then
    match bs with
    | b1 :: b2 :: b3 :: bs3 =>
      if (if b = 240 then 144 ≤ b1 ∧ b1 ≤ 191
          else if b = 244 then 128 ≤ b1 ∧ b1 ≤ 143
          else 128 ≤ b1 ∧ b1 ≤ 191) ∧ 128 ≤ b2 ∧ b2 ≤ 191 ∧ 128 ≤ b3 ∧ b3 ≤ 191 then
        some (Char.ofNat ((b - 240) * 262144 + (b1 - 128) * 4096 +
                          (b2 - 128) * 64 + (b3 - 128)), bs3)
      else none
    | _ => none
  else none

/-- Strict UTF-8 decoding, on fuel (one unit per decoded character). -/
def utf8DecGo : Nat → List Nat → Option (List Char)
| _, [] => some []
| 0, _ :: _ => none
| fuel + 1, b :: bs =>
  match utf8First? b bs with
  | some (c, rest) =>
    match utf8DecGo fuel rest with
    | some cs => some (c :: cs)
    | none => none
  | none => none

/-- Strict UTF-8 decoding (Python `bytes.decode('utf-8')` with the default
`errors='strict'`): `none` models a raised `UnicodeDecodeError`.  The fuel
`l.length` never runs out, by `utf8First?_length`. -/
def utf8Dec? (l : List Nat) : Option (List Char) :=
  utf8DecGo l.length l

/-- UTF-8 decoding with replacement, on fuel.  On an invalid or truncated
sequence the decoder emits U+FFFD and resumes after the lead byte. -/
def utf8DecReplGo : Nat → List Nat → List Char
| _, [] => []
| 0, _ :: _ => []
| fuel + 1, b :: bs =>
  match utf8First? b bs with
  | some (c, rest) => c :: utf8DecReplGo fuel rest
  | none => Char.ofNat 65533 :: utf8DecReplGo fuel bs

/-- UTF-8 decoding with `errors='replace'`, used by `urllib.parse.unquote`
on the byte runs collected from percent-escapes.  This matches CPython on
every valid sequence (the only ones the theorems below exercise), and
approximates CPython's replacement granularity on invalid ones. -/
def utf8DecRepl (l : List Nat) : List Char :=
  utf8DecReplGo l.length l

/-- The value of a hexadecimal digit character, if it is one. -/
def hexVal? (c : Char) : Option Nat :=
  if '0' ≤ c ∧ c ≤ '9' then some (c.toNat - 48)
  else if 'a' ≤ c ∧ c ≤ 'f' then some (c.toNat - 87)
  else if 'A' ≤ c ∧ c ≤ 'F' then some (c.toNat - 55)
  else none

/-- Scanner for `urllib.parse.unquote`: maximal runs of `%hh` escapes are
collected into `pending` bytes and decoded as one UTF-8 chunk when the run
ends; an escape that is not two hex digits keeps its `%` literally; every
other character passes through unchanged. -/
def unquoteAux : List Char → List Nat → List Char
| [], pending => utf8DecRepl pending
| '%' :: c1 :: c2 :: rest, pending =>
  match hexVal? c1, hexVal? c2 with
  | some h, some l => unquoteAux rest (pending ++ [16 * h + l])
  | _, _ => utf8DecRepl pending ++ '%' :: unquoteAux (c1 :: c2 :: rest) []
| c :: rest, pending => utf8DecRepl pending ++ c :: unquoteAux rest []

/-- `urllib.parse.unquote` with its defaults (UTF-8, `errors='replace'`). -/
def pyUnquote (s : String) : String :=
  String.mk (unquoteAux s.data [])

/-- Python `s.startswith(pre)`. -/
def pyStartsWith (s pre : String) : Bool :=
  pre.data.isPrefixOf s.data

/-- Python `s.endswith(suf)`. -/
def pyEndsWith (s suf : String) : Bool :=
  List.isSuffixOf suf.data s.data

/-- Python `s.lstrip(c)` for a one-character strip set. -/
def pyLstrip (s : String) (c : Char) : String :=
  String.mk (s.data.dropWhile (fun x => x == c))

/-- Splitting on a non-empty separator, on fuel (one unit per consumed
character): the pieces between non-overlapping left-to-right matches. -/
def splitOnGo (sep : List Char) : Nat → List Char → List Char → List (List Char)
| _, [], acc => [acc.reverse]
| 0, l, acc => [acc.reverse ++ l]
| fuel + 1, c :: rest, acc =>
  if sep.isPrefixOf (c :: rest) then
    acc.reverse :: splitOnGo sep fuel ((c :: rest).drop sep.length) []
  else splitOnGo sep fuel rest (c :: acc)

/-- Python `s.split(sep)` for a separator argument.  CPython raises
`ValueError` for an empty separator; no caller passes one, and this model
returns `[s]` there. -/
def pySplitOn (s sep : String) : List String :=
  if sep.data.isEmpty then [s]
  else (splitOnGo sep.data s.data.length s.data []).map String.mk

/-- Python `s.split()` with no argument, on fuel: tokens between runs of
whitespace, with no empty tokens. -/
def pySplitGo : Nat → List Char → List (List Char)
| _, [] => []
| 0, _ :: _ => []
| fuel + 1, c :: rest =>
  if c.isWhitespace then pySplitGo fuel rest
  else (c :: rest.takeWhile (fun x => !x.isWhitespace)) ::
    pySplitGo fuel (rest.dropWhile (fun x => !x.isWhitespace))

/-- Python `s.split()` with no argument: whitespace-delimited tokens,
leading and trailing whitespace ignored, never an empty token. -/
def pySplit (s : String) : List String :=
  (pySplitGo s.data.length s.data).map String.mk

/-- Python `s.replace(pat, rep)` for a non-empty pattern, which CPython
realizes by splitting on the pattern and joining with the replacement. -/
def pyReplace (s pat rep : String) : String :=
  String.intercalate rep (pySplitOn s pat)

/-- The first element of `s.split('\r\n')`: everything before the first
CRLF, or the whole string when it has none. -/
def firstLine (s : String) : String :=
  (pySplitOn s "\r\n").headD ""

/-- `posixpath.join(a, b)` for two components: `b` if it is absolute,
otherwise `a` and `b` glued with exactly one separator. -/
def posixJoin (a b : String) : String :=
  if pyStartsWith b "/" then b
  else if a = "" ∨ pyEndsWith a "/" then a ++ b
  else a ++ "/" ++ b

/-- `posixpath.normpath`: collapse repeated separators, drop `.` segments,
resolve `..` against the preceding segment (keeping it at the root), and
preserve the POSIX special case of exactly two leading slashes. -/
def normpath (p : String) : String :=
  if p = "" then "."
  else
    let initialSlashes : Nat :=
      if pyStartsWith p "//" ∧ ¬ pyStartsWith p "///" then 2
      else if pyStartsWith p "/" then 1 else 0
    let newComps := (pySplitOn p "/").foldl
      (fun acc comp =>
        if comp = "" ∨ comp = "." then acc
        else if comp ≠ ".." ∨ (initialSlashes = 0 ∧ acc = []) ∨ acc.getLast? = some ".."
          then acc ++ [comp]
        else acc.dropLast)
      []
    let joined := String.mk (List.replicate initialSlashes '/') ++
      String.intercalate "/" newComps
    if joined = "" then "." else joined

/-- `os.path.abspath` for the paths this program builds: the root directory
is made absolute at startup, so every path passed to `abspath` here is
already absolute and `abspath` reduces to `normpath`. -/
def pyAbspath (p : String) : String := normpath p

/-- `posixpath.basename`: the part after the last separator. -/
def basename (p : String) : String :=
  (pySplitOn p "/").getLastD ""

/-- The OS-level stat behind `os.path.isfile`, `os.path.isdir`, `os.access`
and `open`: the kernel resolves the queried path before looking it up, so
the lookup canonicalizes the path into the canonical-keyed map. -/
def osStat (fs : Fs) (p : String) : Option Node :=
  fs (pyAbspath p)

/-- The status line of a serialized response: its bytes before the first CR. -/
def statusLine (resp : List Nat) : List Nat :=
  resp.takeWhile (fun b => b ≠ 13)

/-- The specification's containment criterion (spec §4.2, stated from its
words for comparison with the code's raw string test): the canonical root
must be a path-segment prefix of the canonical path — the path is the root
itself or extends it at a `/` boundary. -/
def segContains (root p : String) : Bool :=
  p == root || pyStartsWith p (root ++ "/")

/-- Python `dict.update`: each key of `extra` overwrites an existing entry
in place or is appended in insertion order. -/
def dictUpdate (hs extra : List (String × String)) : List (String × String) :=
  extra.foldl
    (fun acc kv =>
      if acc.any (fun p => p.1 == kv.1) then
        acc.map (fun p => if p.1 = kv.1 then (p.1, kv.2) else p)
      else acc ++ [kv])
    hs

namespace ServerPy

/-- `SimpleWebServer.create_response` of `src/server.py` (lines 117–144).
The Python defaults (`content=b''`, `content_type='text/html'`) are passed
explicitly by every call of this embedding. -/
def create_response (status_code : Nat) (status_message : String)
    (content : PyData) (content_type : String) : List Nat :=
  let response_line := "HTTP/1.1 " ++ toString status_code ++ " " ++ status_message ++ "\r\n"
  let headers : List (String × String) :=
    [("Server", "SimplePythonWebServer"), ("Connection", "close")]
  let headers :=
    if content.isTruthy then
      headers ++ [("Content-Length", toString content.pyLen), ("Content-Type", content_type)]
    else headers
  let headers_str :=
    String.intercalate "\r\n" (headers.map fun kv => kv.1 ++ ": " ++ kv.2) ++ "\r\n\r\n"
  utf8Encode response_line ++ utf8Encode headers_str ++
    (if content.isTruthy then content.encodeBody else [])

/-- The try-block of `SimpleWebServer.handle_client` of `src/server.py`
(lines 64–108) after the `recv` and UTF-8 decode, on the decoded request
text, returning the trace of its filesystem and socket actions (the
`finally`-close is appended by `handle_client`).  The ambient `self`
state is the root directory; `guess_type` is the external MIME lookup. -/
def handle_body (root : String) (fs : Fs) (mime : String → Option String)
    (request_data : String) : List Ev :=
  if request_data = "" then []
  else
    let request_line := firstLine request_data
    let parts := pySplit request_line
    if parts.length < 2 then
      [Ev.send (create_response 400 "Bad Request" (PyData.bytes []) "text/html")]
    else
      let method := parts.headD ""
      let path := (parts.drop 1).headD ""
      if method ≠ "GET" then
        [Ev.send (create_response 405 "Method Not Allowed" (PyData.bytes []) "text/html")]
      else
        let path := if path = "/" then "/index.html" else path
        let file_path := posixJoin root (pyLstrip path '/')
        if !(pyStartsWith (pyAbspath file_path) root) then
          [Ev.send (create_response 403 "Forbidden" (PyData.bytes []) "text/html")]
        else
          match osStat fs file_path with
          | some (Node.file content readable) =>
            if readable then
              [Ev.stat file_path, Ev.stat file_path, Ev.read file_path,
               Ev.send (create_response 200 "OK" (PyData.bytes content)
                 ((mime file_path).getD "text/plain"))]
            else
              [Ev.stat file_path, Ev.stat file_path,
               Ev.send (create_response 404 "Not Found"
                 (PyData.bytes (utf8Encode "<h1>404 Not Found</h1>")) "text/html")]
          | _ =>
            [Ev.stat file_path,
             Ev.send (create_response 404 "Not Found"
               (PyData.bytes (utf8Encode "<h1>404 Not Found</h1>")) "text/html")]

/-- `SimpleWebServer.handle_client` of `src/server.py` (lines 62–115): the
strict UTF-8 decode of the received bytes (whose failure raises
`UnicodeDecodeError`, caught by the except-branch and answered with the
fixed 500 response), the try-body, and the `finally`-close, which runs on
every path. -/
def handle_client (root : String) (fs : Fs) (mime : String → Option String)
    (bs : List Nat) : List Ev :=
  (match utf8Dec? bs with
   | none =>
     [Ev.send (create_response 500 "Internal Server Error"
       (PyData.bytes (utf8Encode "<h1>500 Internal Server Error</h1>")) "text/html")]
   | some cs => handle_body root fs mime (String.mk cs)) ++ [Ev.close]

end ServerPy

namespace TempPy

/-- The fixed "download" extension set of `src/临时.py` line 128. -/
def download_exts : List String := [".doc", ".docx", ".pdf", ".xlsx", ".zip"]

/-- Lines 127–130 of `src/临时.py`: the extra `Content-Disposition` header
added when the resolved file's name ends in one of the download
extensions; otherwise the empty (falsy) extra-header dict. -/
def download_headers (abs_path : String) : List (String × String) :=
  if download_exts.any (fun ext => pyEndsWith abs_path ext) then
    [("Content-Disposition", "attachment; filename=\"" ++ basename abs_path ++ "\"")]
  else []

/-- Lines 107–111 of `src/临时.py`: the directory-listing HTML, built by
appending one `<li><a href=...>` element per entry of `os.listdir` to the
header, then closing the list. -/
def listing_content (path : String) (items : List String) : String :=
  (items.foldl
    (fun content item =>
      content ++ "<li><a href=\"" ++ (pyReplace (posixJoin path item) "\\" "/") ++
        "\">" ++ item ++ "</a></li>")
    ("<h1>目录列表：" ++ path ++ "</h1><ul>")) ++ "</ul>"

/-- `SimpleWebServer.create_response` of `src/临时.py` (lines 146–176).
The Python defaults (`content=b''`, `content_type='text/html'`,
`extra_headers=None`) are passed explicitly; `None` and `{}` are both
embedded as `[]` (both are falsy for the `if extra_headers:` test). -/
def create_response (status_code : Nat) (status_message : String)
    (content : PyData) (content_type : String)
    (extra_headers : List (String × String)) : List Nat :=
  let response_line := "HTTP/1.1 " ++ toString status_code ++ " " ++ status_message ++ "\r\n"
  let headers : List (String × String) :=
    [("Server", "SimplePythonWebServer"), ("Connection", "close")]
  let headers :=
    if content.isTruthy then
      headers ++ [("Content-Length", toString content.pyLen), ("Content-Type", content_type)]
    else headers
  let headers := if extra_headers ≠ [] then dictUpdate headers extra_headers else headers
  let headers_str :=
    String.intercalate "\r\n" (headers.map fun kv => kv.1 ++ ": " ++ kv.2) ++ "\r\n\r\n"
  utf8Encode response_line ++ utf8Encode headers_str ++
    (if content.isTruthy then content.encodeBody else [])

/-- The try-block of `SimpleWebServer.handle_client` of `src/临时.py`
(lines 65–137) after the `recv` and UTF-8 decode: like the minimal
variant, plus percent-decoding of the path, the directory-listing branch,
and the download-hint headers.  The inner try/except around `os.listdir`
(lines 105–115) cannot fail in this model — the path was just observed to
be a directory — so its 500-branch is unreachable here. -/
def handle_body (root : String) (fs : Fs) (mime : String → Option String)
    (request_data : String) : List Ev :=
  if request_data = "" then []
  else
    let request_line := firstLine request_data
    let parts := pySplit request_line
    if parts.length < 2 then
      [Ev.send (create_response 400 "Bad Request" (PyData.bytes []) "text/html" [])]
    else
      let method := parts.headD ""
      let raw_path := (parts.drop 1).headD ""
      if method ≠ "GET" then
        [Ev.send (create_response 405 "Method Not Allowed" (PyData.bytes []) "text/html" [])]
      else
        let path := pyUnquote raw_path
        let path := if path = "/" then "/index.html" else path
        let file_path := posixJoin root (pyLstrip path '/')
        let abs_path := pyAbspath file_path
        if !(pyStartsWith abs_path root) then
          [Ev.send (create_response 403 "Forbidden" (PyData.bytes []) "text/html" [])]
        else
          match osStat fs abs_path with
          | some (Node.dir items) =>
            [Ev.stat abs_path, Ev.listdir abs_path,
             Ev.send (create_response 200 "OK"
               (PyData.str (listing_content path items)) "text/html" [])]
          | some (Node.file content readable) =>
            if readable then
              [Ev.stat abs_path, Ev.stat abs_path, Ev.stat abs_path, Ev.read abs_path,
               Ev.send (create_response 200 "OK" (PyData.bytes content)
                 ((mime abs_path).getD "application/octet-stream")
                 (download_headers abs_path))]
            else
              [Ev.stat abs_path, Ev.stat abs_path, Ev.stat abs_path,
               Ev.send (create_response 404 "Not Found"
                 (PyData.bytes (utf8Encode "<h1>404 Not Found</h1>")) "text/html" [])]
          | none =>
            [Ev.stat abs_path, Ev.stat abs_path,
             Ev.send (create_response 404 "Not Found"
               (PyData.bytes (utf8Encode "<h1>404 Not Found</h1>")) "text/html" [])]

/-- `SimpleWebServer.handle_client` of `src/临时.py` (lines 63–144): the
strict UTF-8 decode of the received bytes (whose failure is caught by the
except-branch and answered with the fixed 500 response), the try-body, and
the `finally`-close, which runs on every path. -/
def handle_client (root : String) (fs : Fs) (mime : String → Option String)
    (bs : List Nat) : List Ev :=
  (match utf8Dec? bs with
   | none =>
     [Ev.send (create_response 500 "Internal Server Error"
       (PyData.bytes (utf8Encode "<h1>500 Internal Server Error</h1>")) "text/html" [])]
   | some cs => handle_body root fs mime (String.mk cs)) ++ [Ev.close]

end TempPy

/-!
Counting hyperlinks.  The spec's "one link per immediate child" is made
formal by counting occurrences of the two-character pattern `<a` — the
opening of an anchor element — in the listing body.  The builder's literal
fragments contain `<a` exactly once, in `<li><a href="`, so under the
side-conditions that the request path and entry names contain no `<` the
body holds exactly one anchor per entry.
-/

/-- The number of occurrences of the substring `<a` in a character list. -/
def anchorCount : List Char → Nat
| [] => 0
| [_] => 0
| a :: b :: rest => (if a = '<' ∧ b = 'a' then 1 else 0) + anchorCount (b :: rest)


/-!
Concrete fixtures used by witnesses and counterexamples.
-/

/-- A MIME lookup that knows no extension (`guess_type` giving `(None, _)`). -/
def mimeNone : String → Option String := fun _ => none

/-- A filesystem holding only `/srv/rootevil`, a readable sibling of the
root `/srv/root` whose name shares the root's string prefix. -/
def fsRootevil : Fs := fun p =>
  if p = "/srv/rootevil" then some (Node.file (utf8Encode "secret") true) else none

/-- A filesystem for root `/r`: one directory `d` with a single entry. -/
def fsDocs : Fs := fun p =>
  if p = "/r/d" then some (Node.dir ["a.txt"])
  else if p = "/r/d/a.txt" then some (Node.file (utf8Encode "x") true)
  else none

/-- A filesystem for root `/r`: one readable file with a non-ASCII name. -/
def fsUnicode : Fs := fun p =>
  if p = "/r/中.txt" then some (Node.file (utf8Encode "hi") true) else none

/-- The empty filesystem. -/
def fsEmpty : Fs := fun _ => none

/-!
General lemmas: sufficiency of the UTF-8 fuel, hyperlink counting, and
shape lemmas about the handler bodies.
-/

/-- The leftover bytes of a successful `utf8First?` are a tail of `bs`, so
decoding one character always consumes at least the lead byte: a fuel of
the input's length is enough for a whole decode. -/
theorem utf8First?_length (b : Nat) (bs : List Nat) (c : Char) (rest : List Nat)
    (h : utf8First? b bs = some (c, rest)) : rest.length ≤ bs.length := by
  unfold utf8First? at h
  repeat' split at h
  all_goals simp_all
  all_goals omega

theorem anchorCount_append (xs ys : List Char)
    (h : xs.getLast? ≠ some '<' ∨ ys.head? ≠ some 'a') :
    anchorCount (xs ++ ys) = anchorCount xs + anchorCount ys := by
  induction xs with
  | nil => simp [anchorCount]
  | cons c cs ih =>
    cases cs with
    | nil =>
      cases ys with
      | nil => simp [anchorCount]
      | cons y ys2 =>
        have hcy : ¬ (c = '<' ∧ y = 'a') := by
          rcases h with h | h
          · exact fun hc => h (by simp [hc.1])
          · exact fun hc => h (by simp [hc.2])
        simp [anchorCount, hcy]
    | cons c2 cs2 =>
      have h2 : (c2 :: cs2).getLast? ≠ some '<' ∨ ys.head? ≠ some 'a' := by
        rcases h with h | h
        · exact Or.inl h
        · exact Or.inr h
      have hrec := ih h2
      have e1 : anchorCount ((c :: c2 :: cs2) ++ ys) =
          (if c = '<' ∧ c2 = 'a' then 1 else 0) + anchorCount ((c2 :: cs2) ++ ys) := rfl
      have e2 : anchorCount (c :: c2 :: cs2) =
          (if c = '<' ∧ c2 = 'a' then 1 else 0) + anchorCount (c2 :: cs2) := rfl
      rw [e1, e2, hrec]
      omega

theorem anchorCount_eq_zero (l : List Char) (h : '<' ∉ l) : anchorCount l = 0 := by
  induction l with
  | nil => rfl
  | cons a t ih =>
    cases t with
    | nil => rfl
    | cons b t2 =>
      have ha : a ≠ '<' := fun hc => h (by simp [hc])
      have ht : anchorCount (b :: t2) = 0 := ih (fun hm => h (List.mem_cons_of_mem _ hm))
      have hcond : ¬ (a = '<' ∧ b = 'a') := fun hc => ha hc.1
      simp [anchorCount, hcond, ht]

theorem anchorR (xs ys : List Char) (h : ys.head? ≠ some 'a')
    (h0 : anchorCount ys = 0) : anchorCount (xs ++ ys) = anchorCount xs := by
  rw [anchorCount_append _ _ (Or.inr h), h0]
  omega

theorem anchorL (xs ys : List Char) (h : xs.getLast? ≠ some '<')
    (h0 : anchorCount ys = 0) : anchorCount (xs ++ ys) = anchorCount xs := by
  rw [anchorCount_append _ _ (Or.inl h), h0]
  omega

theorem step_anchors (acc link item : String)
    (hl : '<' ∉ link.data) (hi : '<' ∉ item.data) :
    anchorCount ((acc ++ "<li><a href=\"" ++ link ++ "\">" ++ item ++ "</a></li>").data)
      = anchorCount acc.data + 1 := by
  simp only [String.data_append]
  have h2 : (acc.data ++ ("<li><a href=\"").data).getLast? ≠ some '<' := by
    rw [List.getLast?_append_of_ne_nil _ (by decide)]; decide
  have h1 : (((acc.data ++ ("<li><a href=\"").data) ++ link.data) ++ ("\">").data).getLast?
      ≠ some '<' := by
    rw [List.getLast?_append_of_ne_nil _ (by decide)]; decide
  rw [anchorR _ _ (by decide) (by decide)]
  rw [anchorL _ _ h1 (anchorCount_eq_zero _ hi)]
  rw [anchorR _ _ (by decide) (by decide)]
  rw [anchorL _ _ h2 (anchorCount_eq_zero _ hl)]
  rw [anchorCount_append _ _ (Or.inr (by decide))]
  have : anchorCount (("<li><a href=\"").data) = 1 := by decide
  rw [this]

theorem listing_fold_anchors (path : String) (items : List String) (acc : String)
    (hi : ∀ i ∈ items, '<' ∉ i.data)
    (hl : ∀ i ∈ items, '<' ∉ (pyReplace (posixJoin path i) "\\" "/").data) :
    anchorCount ((items.foldl
      (fun content item =>
        content ++ "<li><a href=\"" ++ (pyReplace (posixJoin path item) "\\" "/") ++
          "\">" ++ item ++ "</a></li>") acc).data)
      = anchorCount acc.data + items.length := by
  induction items generalizing acc with
  | nil => simp
  | cons i is ih =>
    rw [List.foldl_cons]
    rw [ih _ (fun j hj => hi j (List.mem_cons_of_mem _ hj))
          (fun j hj => hl j (List.mem_cons_of_mem _ hj))]
    rw [step_anchors acc _ i (hl i (List.mem_cons_self _ _)) (hi i (List.mem_cons_self _ _))]
    simp [List.length_cons]
    omega

theorem listing_content_anchors (path : String) (items : List String)
    (hp : '<' ∉ path.data)
    (hi : ∀ i ∈ items, '<' ∉ i.data)
    (hl : ∀ i ∈ items, '<' ∉ (pyReplace (posixJoin path i) "\\" "/").data) :
    anchorCount ((TempPy.listing_content path items).data) = items.length := by
  unfold TempPy.listing_content
  rw [String.data_append]
  rw [anchorR _ _ (by decide) (by decide)]
  rw [listing_fold_anchors path items _ hi hl]
  have hA : anchorCount (("<h1>目录列表：" ++ path ++ "</h1><ul>").data) = 0 := by
    simp only [String.data_append]
    have hAl : (("<h1>目录列表：").data).getLast? ≠ some '<' := by decide
    rw [anchorR _ _ (by decide) (by decide)]
    rw [anchorL _ _ hAl (anchorCount_eq_zero _ hp)]
    decide
  rw [hA]
  omega

/-- Strict UTF-8 decoding of a non-empty byte sequence never yields the
empty character list: the first decoded character is produced by the first
(one to four) bytes. -/
theorem utf8Dec?_cons_ne_nil (b : Nat) (bs : List Nat) (cs : List Char)
    (h : utf8Dec? (b :: bs) = some cs) : cs ≠ [] := by
  intro hnil
  subst hnil
  simp only [utf8Dec?, List.length_cons] at h
  unfold utf8DecGo at h
  repeat' split at h
  all_goals simp_all

/-- The try-body of the minimal variant sends no close event and sends
exactly one response unless the request text is empty. -/
theorem server_body_spec (root : String) (fs : Fs) (mime : String → Option String)
    (rd : String) :
    Ev.close ∉ ServerPy.handle_body root fs mime rd ∧
    (sends (ServerPy.handle_body root fs mime rd)).length = (if rd = "" then 0 else 1) := by
  by_cases h : rd = ""
  · subst h; simp [ServerPy.handle_body, sends]
  · simp only [ServerPy.handle_body, if_neg h]
    repeat' split
    all_goals simp [sends]

/-- The try-body of the extended variant sends no close event and sends
exactly one response unless the request text is empty. -/
theorem temp_body_spec (root : String) (fs : Fs) (mime : String → Option String)
    (rd : String) :
    Ev.close ∉ TempPy.handle_body root fs mime rd ∧
    (sends (TempPy.handle_body root fs mime rd)).length = (if rd = "" then 0 else 1) := by
  by_cases h : rd = ""
  · subst h; simp [TempPy.handle_body, sends]
  · simp only [TempPy.handle_body, if_neg h]
    repeat' split
    all_goals simp [sends]

/-!
The claims.
-/

/-- C1: the spec requires containment to be judged at a path-segment
boundary — a root of `/srv/root` must not accept `/srv/rootevil` — with a
403 and no filesystem access for any request escaping the root.  The code
instead tests a raw string prefix (`abs_path.startswith(root_dir)`), so
the request `GET /../rootevil` against root `/srv/root` canonicalizes to
`/srv/rootevil`, which is outside the root by the spec's criterion yet
passes the code's check in both variants: the handlers stat, open and
read the sibling file and answer 200, not 403. -/
theorem C1_prefix_escape :
    segContains "/srv/root"
      (pyAbspath (posixJoin "/srv/root" (pyLstrip "/../rootevil" '/'))) = false ∧
    pyStartsWith (pyAbspath (posixJoin "/srv/root" (pyLstrip "/../rootevil" '/')))
      "/srv/root" = true ∧
    ServerPy.handle_client "/srv/root" fsRootevil mimeNone
      (utf8Encode "GET /../rootevil HTTP/1.1\r\n\r\n") =
      [Ev.stat "/srv/root/../rootevil", Ev.stat "/srv/root/../rootevil",
       Ev.read "/srv/root/../rootevil",
       Ev.send (ServerPy.create_response 200 "OK" (PyData.bytes (utf8Encode "secret"))
         "text/plain"),
       Ev.close] ∧
    TempPy.handle_client "/srv/root" fsRootevil mimeNone
      (utf8Encode "GET /../rootevil HTTP/1.1\r\n\r\n") =
      [Ev.stat "/srv/rootevil", Ev.stat "/srv/rootevil", Ev.stat "/srv/rootevil",
       Ev.read "/srv/rootevil",
       Ev.send (TempPy.create_response 200 "OK" (PyData.bytes (utf8Encode "secret"))
         "application/octet-stream" []),
       Ev.close] := by
  refine ⟨by decide, by decide, by decide, by decide⟩

/-- C2 (counterexample): a connection whose initial read returns zero
bytes is closed without any response being sent, in both variants — the
claim's "no connection is ever closed without a response having been
attempted" is false on the empty-read path. -/
theorem C2_no_response_on_empty_read :
    ServerPy.handle_client "/srv/root" fsEmpty mimeNone [] = [Ev.close] ∧
    sends (ServerPy.handle_client "/srv/root" fsEmpty mimeNone []) = [] ∧
    TempPy.handle_client "/srv/root" fsEmpty mimeNone [] = [Ev.close] ∧
    sends (TempPy.handle_client "/srv/root" fsEmpty mimeNone []) = [] := by
  refine ⟨rfl, rfl, rfl, rfl⟩

/-- C2 (amended): for every accepted connection whose initial read returns
at least one byte, exactly one response is produced and sent — including
when the received bytes fail to decode, which the except-branch converts
to the fixed 500 response — and the socket is closed exactly once, as the
final action, on every path; a zero-byte initial read closes the socket
with no response. -/
theorem C2_one_response_then_close :
    ∀ (root : String) (fs : Fs) (mime : String → Option String) (bs : List Nat),
      (∃ pre, ServerPy.handle_client root fs mime bs = pre ++ [Ev.close] ∧
        Ev.close ∉ pre ∧ (sends pre).length = (if bs = [] then 0 else 1)) ∧
      (∃ pre, TempPy.handle_client root fs mime bs = pre ++ [Ev.close] ∧
        Ev.close ∉ pre ∧ (sends pre).length = (if bs = [] then 0 else 1)) := by
  intro root fs mime bs
  have hbs : ∀ (cs : List Char), utf8Dec? bs = some cs → ((String.mk cs = "") ↔ bs = []) := by
    intro cs h
    constructor
    · intro hmk
      cases bs with
      | nil => rfl
      | cons b bs2 =>
        have hne : cs ≠ [] := utf8Dec?_cons_ne_nil b bs2 cs h
        cases cs with
        | nil => exact absurd rfl hne
        | cons c cst =>
          have := congrArg String.data hmk
          simp at this
    · intro hb
      subst hb
      have : utf8Dec? ([] : List Nat) = some [] := rfl
      rw [this] at h
      cases h
      rfl
  constructor
  · unfold ServerPy.handle_client
    cases hdec : utf8Dec? bs with
    | none =>
      have hbne : bs ≠ [] := by
        intro hb; subst hb
        exact absurd hdec (by decide)
      exact ⟨_, rfl, by simp, by simp [sends, hbne]⟩
    | some cs =>
      refine ⟨ServerPy.handle_body root fs mime (String.mk cs), rfl,
        (server_body_spec root fs mime (String.mk cs)).1, ?_⟩
      rw [(server_body_spec root fs mime (String.mk cs)).2]
      by_cases hmk : String.mk cs = ""
      · rw [if_pos hmk, if_pos ((hbs cs hdec).mp hmk)]
      · rw [if_neg hmk, if_neg (fun hb => hmk ((hbs cs hdec).mpr hb))]
  · unfold TempPy.handle_client
    cases hdec : utf8Dec? bs with
    | none =>
      have hbne : bs ≠ [] := by
        intro hb; subst hb
        exact absurd hdec (by decide)
      exact ⟨_, rfl, by simp, by simp [sends, hbne]⟩
    | some cs =>
      refine ⟨TempPy.handle_body root fs mime (String.mk cs), rfl,
        (temp_body_spec root fs mime (String.mk cs)).1, ?_⟩
      rw [(temp_body_spec root fs mime (String.mk cs)).2]
      by_cases hmk : String.mk cs = ""
      · rw [if_pos hmk, if_pos ((hbs cs hdec).mp hmk)]
      · rw [if_neg hmk, if_neg (fun hb => hmk ((hbs cs hdec).mpr hb))]

set_option maxRecDepth 8192 in
/-- C3: the spec requires `Content-Length` to equal the byte length of the
body as sent.  `create_response` computes the header from `len(content)`
before encoding, so when the extended variant passes a `str` body — every
directory listing does, and its fixed header `目录列表` is non-ASCII — the
header counts characters (62 here) while the body sent is the UTF-8
encoding (72 bytes): the serialized response carries `Content-Length: 62`
followed by a 72-byte body. -/
theorem C3_content_length_mismatch :
    TempPy.handle_client "/r" fsDocs mimeNone (utf8Encode "GET /d HTTP/1.1\r\n\r\n") =
      [Ev.stat "/r/d", Ev.listdir "/r/d",
       Ev.send (TempPy.create_response 200 "OK"
         (PyData.str (TempPy.listing_content "/d" ["a.txt"])) "text/html" []),
       Ev.close] ∧
    TempPy.create_response 200 "OK"
        (PyData.str (TempPy.listing_content "/d" ["a.txt"])) "text/html" [] =
      utf8Encode ("HTTP/1.1 200 OK\r\nServer: SimplePythonWebServer\r\n" ++
          "Connection: close\r\nContent-Length: 62\r\nContent-Type: text/html\r\n\r\n") ++
        utf8Encode (TempPy.listing_content "/d" ["a.txt"]) ∧
    (utf8Encode (TempPy.listing_content "/d" ["a.txt"])).length = 72 := by
  refine ⟨by decide, by decide, by decide⟩

/-- C4 (counterexample): the minimal variant (`src/server.py`) has no
directory branch — `os.path.isfile` is false for the existing directory
`/r/d` inside the root, so the request is answered 404, not 200 with a
listing. -/
theorem C4_minimal_variant_dir_404 :
    ServerPy.handle_client "/r" fsDocs mimeNone (utf8Encode "GET /d HTTP/1.1\r\n\r\n") =
      [Ev.stat "/r/d",
       Ev.send (ServerPy.create_response 404 "Not Found"
         (PyData.bytes (utf8Encode "<h1>404 Not Found</h1>")) "text/html"),
       Ev.close] ∧
    statusLine (ServerPy.create_response 404 "Not Found"
        (PyData.bytes (utf8Encode "<h1>404 Not Found</h1>")) "text/html") =
      utf8Encode "HTTP/1.1 404 Not Found" := by
  refine ⟨by decide, by decide⟩

/-- C9: a connection whose initial socket read returns zero bytes makes
the handler return before any parsing or send (`if not request_data`),
and the finally-clause closes the socket: the trace is exactly one close,
with no send and no filesystem access, in both variants. -/
theorem C9_empty_read_closes_silently (root : String) (fs : Fs)
    (mime : String → Option String) :
    ServerPy.handle_client root fs mime [] = [Ev.close] ∧
    sends (ServerPy.handle_client root fs mime []) = [] ∧
    TempPy.handle_client root fs mime [] = [Ev.close] ∧
    sends (TempPy.handle_client root fs mime []) = [] := by
  refine ⟨rfl, rfl, rfl, rfl⟩

/-- C10: received bytes that are not valid UTF-8 make the decode raise
inside the try-block; the except-branch answers with the fixed 500
internal-error response (not 400), and the socket is then closed, in both
variants. -/
theorem C10_invalid_utf8_500 (root : String) (fs : Fs)
    (mime : String → Option String) (bs : List Nat)
    (h : utf8Dec? bs = none) :
    ServerPy.handle_client root fs mime bs =
      [Ev.send (ServerPy.create_response 500 "Internal Server Error"
        (PyData.bytes (utf8Encode "<h1>500 Internal Server Error</h1>")) "text/html"),
       Ev.close] ∧
    TempPy.handle_client root fs mime bs =
      [Ev.send (TempPy.create_response 500 "Internal Server Error"
        (PyData.bytes (utf8Encode "<h1>500 Internal Server Error</h1>")) "text/html" []),
       Ev.close] := by
  constructor
  · unfold ServerPy.handle_client
    rw [h]
    rfl
  · unfold TempPy.handle_client
    rw [h]
    rfl


/-- Witness for C10 at the concrete input `[0xFF]`, which no UTF-8
sequence begins with. -/
theorem C10_invalid_utf8_500_witness :
    utf8Dec? [255] = none ∧
    ServerPy.handle_client "/r" fsEmpty mimeNone [255] =
      [Ev.send (ServerPy.create_response 500 "Internal Server Error"
        (PyData.bytes (utf8Encode "<h1>500 Internal Server Error</h1>")) "text/html"),
       Ev.close] ∧
    TempPy.handle_client "/r" fsEmpty mimeNone [255] =
      [Ev.send (TempPy.create_response 500 "Internal Server Error"
        (PyData.bytes (utf8Encode "<h1>500 Internal Server Error</h1>")) "text/html" []),
       Ev.close] :=
  ⟨by decide, (C10_invalid_utf8_500 "/r" fsEmpty mimeNone [255] (by decide)).1,
    (C10_invalid_utf8_500 "/r" fsEmpty mimeNone [255] (by decide)).2⟩

/-- C5: when the request line has at least two tokens and the first is not
exactly `GET`, both variants answer 405, whatever the second token is —
the path is never inspected on this branch. -/
theorem C5_non_get_405 (root rd method p : String) (rest : List String)
    (fs : Fs) (mime : String → Option String)
    (hrd : rd ≠ "")
    (hparts : pySplit (firstLine rd) = method :: p :: rest)
    (hm : method ≠ "GET") :
    ServerPy.handle_body root fs mime rd =
      [Ev.send (ServerPy.create_response 405 "Method Not Allowed"
        (PyData.bytes []) "text/html")] ∧
    TempPy.handle_body root fs mime rd =
      [Ev.send (TempPy.create_response 405 "Method Not Allowed"
        (PyData.bytes []) "text/html" [])] := by
  constructor
  · simp only [ServerPy.handle_body, if_neg hrd, hparts, List.length_cons,
      List.headD_cons, List.drop_succ_cons, List.drop_zero]
    rw [if_neg (by omega), if_pos hm]
  · simp only [TempPy.handle_body, if_neg hrd, hparts, List.length_cons,
      List.headD_cons, List.drop_succ_cons, List.drop_zero]
    rw [if_neg (by omega), if_pos hm]

/-- Witness for C5 at the concrete request `POST /x HTTP/1.1`. -/
theorem C5_non_get_405_witness :
    ServerPy.handle_body "/r" fsEmpty mimeNone "POST /x HTTP/1.1\r\n\r\n" =
      [Ev.send (ServerPy.create_response 405 "Method Not Allowed"
        (PyData.bytes []) "text/html")] ∧
    TempPy.handle_body "/r" fsEmpty mimeNone "POST /x HTTP/1.1\r\n\r\n" =
      [Ev.send (TempPy.create_response 405 "Method Not Allowed"
        (PyData.bytes []) "text/html" [])] :=
  C5_non_get_405 "/r" "POST /x HTTP/1.1\r\n\r\n" "POST" "/x" ["HTTP/1.1"]
    fsEmpty mimeNone (by decide) (by decide) (by decide)

/-- C6: when the decoded request text is non-empty but its first line
splits into fewer than two whitespace-separated tokens, both variants
answer 400. -/
theorem C6_short_request_line_400 (root rd : String) (fs : Fs)
    (mime : String → Option String)
    (hrd : rd ≠ "")
    (hlen : (pySplit (firstLine rd)).length < 2) :
    ServerPy.handle_body root fs mime rd =
      [Ev.send (ServerPy.create_response 400 "Bad Request" (PyData.bytes []) "text/html")] ∧
    TempPy.handle_body root fs mime rd =
      [Ev.send (TempPy.create_response 400 "Bad Request" (PyData.bytes []) "text/html" [])] := by
  constructor
  · simp only [ServerPy.handle_body, if_neg hrd]
    rw [if_pos hlen]
  · simp only [TempPy.handle_body, if_neg hrd]
    rw [if_pos hlen]

/-- Witness for C6 at the concrete one-token request `GET`. -/
theorem C6_short_request_line_400_witness :
    ServerPy.handle_body "/r" fsEmpty mimeNone "GET\r\n\r\n" =
      [Ev.send (ServerPy.create_response 400 "Bad Request" (PyData.bytes []) "text/html")] ∧
    TempPy.handle_body "/r" fsEmpty mimeNone "GET\r\n\r\n" =
      [Ev.send (TempPy.create_response 400 "Bad Request" (PyData.bytes []) "text/html" [])] :=
  C6_short_request_line_400 "/r" "GET\r\n\r\n" fsEmpty mimeNone (by decide) (by decide)

/-- C7: a GET request whose path token is `/` is handled identically to
one whose path token is `/index.html` — the handler rewrites `/` to the
default document before resolution — for every root and every state of the
filesystem, in both variants. -/
theorem C7_root_equiv_index (root rd1 rd2 : String) (rest : List String)
    (fs : Fs) (mime : String → Option String)
    (h1 : rd1 ≠ "") (h2 : rd2 ≠ "")
    (hp1 : pySplit (firstLine rd1) = "GET" :: "/" :: rest)
    (hp2 : pySplit (firstLine rd2) = "GET" :: "/index.html" :: rest) :
    ServerPy.handle_body root fs mime rd1 = ServerPy.handle_body root fs mime rd2 ∧
    TempPy.handle_body root fs mime rd1 = TempPy.handle_body root fs mime rd2 := by
  constructor
  · simp only [ServerPy.handle_body, if_neg h1, if_neg h2, hp1, hp2, List.length_cons,
      List.headD_cons, List.drop_succ_cons, List.drop_zero]
    simp
  · simp only [TempPy.handle_body, if_neg h1, if_neg h2, hp1, hp2, List.length_cons,
      List.headD_cons, List.drop_succ_cons, List.drop_zero,
      show pyUnquote "/" = "/" from rfl,
      show pyUnquote "/index.html" = "/index.html" from rfl]
    simp

/-- Witness for C7 at the concrete requests `GET /` and `GET /index.html`. -/
theorem C7_root_equiv_index_witness :
    ServerPy.handle_body "/r" fsEmpty mimeNone "GET / HTTP/1.1\r\n\r\n" =
      ServerPy.handle_body "/r" fsEmpty mimeNone "GET /index.html HTTP/1.1\r\n\r\n" ∧
    TempPy.handle_body "/r" fsEmpty mimeNone "GET / HTTP/1.1\r\n\r\n" =
      TempPy.handle_body "/r" fsEmpty mimeNone "GET /index.html HTTP/1.1\r\n\r\n" :=
  C7_root_equiv_index "/r" "GET / HTTP/1.1\r\n\r\n" "GET /index.html HTTP/1.1\r\n\r\n"
    ["HTTP/1.1"] fsEmpty mimeNone (by decide) (by decide) (by decide) (by decide)

/-- C4 (amended, extended variant): a GET request whose percent-decoded
path resolves inside the root to an existing directory is answered 200
with content-type `text/html` and the listing body built from
`os.listdir`, which holds exactly one hyperlink (`<a`) per immediate child
entry — no recursion — whenever the path and the entry names contain no
literal `<`. -/
theorem C4_dir_listing (root raw_path rd : String) (rest : List String)
    (fs : Fs) (mime : String → Option String) (items : List String)
    (hrd : rd ≠ "")
    (hparts : pySplit (firstLine rd) = "GET" :: raw_path :: rest)
    (hslash : pyUnquote raw_path ≠ "/")
    (hpref : pyStartsWith (pyAbspath (posixJoin root (pyLstrip (pyUnquote raw_path) '/')))
      root = true)
    (hstat : osStat fs (pyAbspath (posixJoin root (pyLstrip (pyUnquote raw_path) '/'))) =
      some (Node.dir items))
    (hp : '<' ∉ (pyUnquote raw_path).data)
    (hi : ∀ i ∈ items, '<' ∉ i.data)
    (hl : ∀ i ∈ items, '<' ∉ (pyReplace (posixJoin (pyUnquote raw_path) i) "\\" "/").data) :
    TempPy.handle_body root fs mime rd =
      [Ev.stat (pyAbspath (posixJoin root (pyLstrip (pyUnquote raw_path) '/'))),
       Ev.listdir (pyAbspath (posixJoin root (pyLstrip (pyUnquote raw_path) '/'))),
       Ev.send (TempPy.create_response 200 "OK"
         (PyData.str (TempPy.listing_content (pyUnquote raw_path) items)) "text/html" [])] ∧
    anchorCount ((TempPy.listing_content (pyUnquote raw_path) items).data) = items.length := by
  constructor
  · simp only [TempPy.handle_body, if_neg hrd, hparts, List.length_cons,
      List.headD_cons, List.drop_succ_cons, List.drop_zero, if_neg hslash]
    rw [if_neg (by omega)]
    rw [if_neg (by simp)]
    rw [hpref]
    simp only [Bool.not_true]
    rw [if_neg (by simp)]
    rw [hstat]
  · exact listing_content_anchors _ _ hp hi hl

/-- Witness for C4 at the concrete request `GET /d` against a root `/r`
holding the directory `d` with the single entry `a.txt`. -/
theorem C4_dir_listing_witness :
    TempPy.handle_body "/r" fsDocs mimeNone "GET /d HTTP/1.1\r\n\r\n" =
      [Ev.stat (pyAbspath (posixJoin "/r" (pyLstrip (pyUnquote "/d") '/'))),
       Ev.listdir (pyAbspath (posixJoin "/r" (pyLstrip (pyUnquote "/d") '/'))),
       Ev.send (TempPy.create_response 200 "OK"
         (PyData.str (TempPy.listing_content (pyUnquote "/d") ["a.txt"])) "text/html" [])] ∧
    anchorCount ((TempPy.listing_content (pyUnquote "/d") ["a.txt"]).data) =
      (["a.txt"] : List String).length :=
  C4_dir_listing "/r" "/d" "GET /d HTTP/1.1\r\n\r\n" ["HTTP/1.1"] fsDocs mimeNone ["a.txt"]
    (by decide) (by decide) (by decide) (by decide) (by decide) (by decide)
    (by decide) (by decide)

/-- C8 (counterexample): the minimal variant (`src/server.py`) never
percent-decodes the path token, so `GET /%E4%B8%AD.txt` — the UTF-8
percent-encoding of `/中.txt` — is resolved with the literal characters
`%E4%B8%AD.txt`; the existing readable file `/r/中.txt` is not found and
the answer is 404, not the file's content. -/
theorem C8_minimal_variant_no_decode :
    pyUnquote "/%E4%B8%AD.txt" = "/中.txt" ∧
    ServerPy.handle_client "/r" fsUnicode mimeNone
      (utf8Encode "GET /%E4%B8%AD.txt HTTP/1.1\r\n\r\n") =
      [Ev.stat "/r/%E4%B8%AD.txt",
       Ev.send (ServerPy.create_response 404 "Not Found"
         (PyData.bytes (utf8Encode "<h1>404 Not Found</h1>")) "text/html"),
       Ev.close] := by
  refine ⟨by decide, by decide⟩

/-- C8 (amended, extended variant): the second token is percent-decoded
(`urllib.parse.unquote`) before path resolution, so a request resolves to
the node stored under the decoded literal characters: whenever the decoded
path leads inside the root to a readable file, its content is served. -/
theorem C8_decoded_resolution (root raw_path rd : String) (rest : List String)
    (fs : Fs) (mime : String → Option String) (content : List Nat)
    (hrd : rd ≠ "")
    (hparts : pySplit (firstLine rd) = "GET" :: raw_path :: rest)
    (hslash : pyUnquote raw_path ≠ "/")
    (hpref : pyStartsWith (pyAbspath (posixJoin root (pyLstrip (pyUnquote raw_path) '/')))
      root = true)
    (hstat : osStat fs (pyAbspath (posixJoin root (pyLstrip (pyUnquote raw_path) '/'))) =
      some (Node.file content true)) :
    TempPy.handle_body root fs mime rd =
      [Ev.stat (pyAbspath (posixJoin root (pyLstrip (pyUnquote raw_path) '/'))),
       Ev.stat (pyAbspath (posixJoin root (pyLstrip (pyUnquote raw_path) '/'))),
       Ev.stat (pyAbspath (posixJoin root (pyLstrip (pyUnquote raw_path) '/'))),
       Ev.read (pyAbspath (posixJoin root (pyLstrip (pyUnquote raw_path) '/'))),
       Ev.send (TempPy.create_response 200 "OK" (PyData.bytes content)
         ((mime (pyAbspath (posixJoin root (pyLstrip (pyUnquote raw_path) '/')))).getD
           "application/octet-stream")
         (TempPy.download_headers
           (pyAbspath (posixJoin root (pyLstrip (pyUnquote raw_path) '/')))))] := by
  simp only [TempPy.handle_body, if_neg hrd, hparts, List.length_cons,
    List.headD_cons, List.drop_succ_cons, List.drop_zero, if_neg hslash]
  rw [if_neg (by omega)]
  rw [if_neg (by simp)]
  rw [hpref]
  simp only [Bool.not_true]
  rw [if_neg (by simp)]
  rw [hstat]
  rfl

/-- Witness for C8 at the concrete request `GET /%E4%B8%AD.txt` against a
root `/r` holding the readable file `中.txt`. -/
theorem C8_decoded_resolution_witness :
    TempPy.handle_body "/r" fsUnicode mimeNone "GET /%E4%B8%AD.txt HTTP/1.1\r\n\r\n" =
      [Ev.stat (pyAbspath (posixJoin "/r" (pyLstrip (pyUnquote "/%E4%B8%AD.txt") '/'))),
       Ev.stat (pyAbspath (posixJoin "/r" (pyLstrip (pyUnquote "/%E4%B8%AD.txt") '/'))),
       Ev.stat (pyAbspath (posixJoin "/r" (pyLstrip (pyUnquote "/%E4%B8%AD.txt") '/'))),
       Ev.read (pyAbspath (posixJoin "/r" (pyLstrip (pyUnquote "/%E4%B8%AD.txt") '/'))),
       Ev.send (TempPy.create_response 200 "OK" (PyData.bytes (utf8Encode "hi"))
         ((mimeNone (pyAbspath (posixJoin "/r"
             (pyLstrip (pyUnquote "/%E4%B8%AD.txt") '/')))).getD
           "application/octet-stream")
         (TempPy.download_headers
           (pyAbspath (posixJoin "/r" (pyLstrip (pyUnquote "/%E4%B8%AD.txt") '/')))))] :=
  C8_decoded_resolution "/r" "/%E4%B8%AD.txt" "GET /%E4%B8%AD.txt HTTP/1.1\r\n\r\n"
    ["HTTP/1.1"] fsUnicode mimeNone (utf8Encode "hi")
    (by decide) (by decide) (by decide) (by decide) (by decide)
